import Mathlib

/-!
# Verification of the monthly banking ETL job (`src/Glue/etl.py`)

Shallow embedding of the single-script ETL pipeline: module-level
configuration, the monthly date window computed by the driver, the
JDBC extraction query and its overwrite-mode landing write, the
five-way inner join of the transformer, the trailing three-row moving
average per branch, and the driver's control flow including its error
handling.  Machine-level concerns (Spark execution, S3, JDBC) are
modelled by their observable effects: queries filter row lists, writes
update a path-indexed store, engine failures are `Except` values.
-/

namespace ETL

/-! ## Module-level configuration (etl.py lines 20-23)

`year_month` is computed from the wall clock once at import time; it is
modelled as an explicit parameter threaded to every definition that the
Python module would read it from. -/

def s3_base_path : String := "s3a://banking_data"

def landing : String := "bronze"

def transform : String := "silver"

/-! ## Python exceptions

The exception values that the script can raise or log.  `sparkError`
stands for any failure surfaced by the data-processing engine
(connection, read, write, analysis). -/

inductive PyError where
  | valueError (msg : String)
  | nameError (name : String)
  | typeError (msg : String)
  | sparkError (msg : String)
deriving DecidableEq, Repr

/-! ## Calendar dates (etl.py lines 160-165)

`calendar.monthrange(year, month)` returns `(first_weekday, last_day)`;
the driver uses only `last_day`.  Dates compare lexicographically, which
agrees with the SQL comparison of the ISO-formatted date literals the
query interpolates. -/

structure Date where
  year : Nat
  month : Nat
  day : Nat
deriving DecidableEq, Repr

def isLeapYear (y : Nat) : Bool :=
  (y % 4 == 0 && y % 100 != 0) || (y % 400 == 0)

/-- The last calendar day of a month, as `calendar.monthrange` reports it. -/
def monthrangeLastDay (y m : Nat) : Nat :=
  if m = 2 then (if isLeapYear y then 29 else 28)
  else if m = 4 ∨ m = 6 ∨ m = 9 ∨ m = 11 then 30
  else 31

/-- Strict lexicographic order on dates. -/
def dateLt (a b : Date) : Bool :=
  a.year < b.year ∨ (a.year = b.year ∧
    (a.month < b.month ∨ (a.month = b.month ∧ a.day < b.day)))

def dateLe (a b : Date) : Bool := a = b || dateLt a b

/-- `start_date = current_date.replace(day=1).date()` (etl.py line 164). -/
def startDateOf (now : Date) : Date := { now with day := 1 }

/-- `end_date = current_date.replace(day=last_day).date()` with
`last_day` from `calendar.monthrange` (etl.py lines 163, 165). -/
def endDateOf (now : Date) : Date :=
  { now with day := monthrangeLastDay now.year now.month }

/-! ## Extraction query (etl.py lines 51-55)

`SELECT * FROM {table} WHERE date_column >= '{start}' AND
date_column < '{end}'`, modelled as a filter over the source table's
rows.  `payload` stands for the remaining columns carried by
`SELECT *`. -/

structure SrcRow where
  date_column : Date
  payload : String
deriving DecidableEq, Repr

/-- The row set produced by the extraction query for a given window. -/
def extractQuery (start_date end_date : Date) (rows : List SrcRow) : List SrcRow :=
  rows.filter (fun r => dateLe start_date r.date_column && dateLt r.date_column end_date)

/-! ## Landing write (etl.py lines 71-72)

`s3_output_path = f'{s3_base_path}/{landing}/{table_name}/{year_month}/{table_name}_monthly_data_extract.csv'`
followed by `df.write.mode('overwrite').csv(s3_output_path)`.  The
extractor receives `start_date` and `end_date` (etl.py line 48); the
path expression uses neither, only the table name and the module-level
`year_month`. -/

/-- The landing path computed inside `extract_monthly_data`.  It takes the
extractor's full argument list; the f-string only mentions `table_name`
and the module-level `year_month`. -/
def extract_s3_output_path (year_month : String) (table_name : String)
    (start_date end_date : Date) : String :=
  s3_base_path ++ "/" ++ landing ++ "/" ++ table_name ++ "/" ++ year_month ++ "/"
    ++ table_name ++ "_monthly_data_extract.csv"

/-- The object store: a map from path to stored CSV content. -/
def ObjectStore : Type := String → Option (List SrcRow)

/-- `df.write.mode('overwrite')`: the object at `path` is fully replaced;
every other path is untouched. -/
def writeOverwriteCsv (store : ObjectStore) (path : String)
    (content : List SrcRow) : ObjectStore :=
  fun p => if p = path then some content else store p

/-- One run of `extract_monthly_data` over a source table `source`,
observed on the object store: query the window, write the result to the
landing path in overwrite mode. -/
def extract_write (store : ObjectStore) (year_month table_name : String)
    (start_date end_date : Date) (source : List SrcRow) : ObjectStore :=
  writeOverwriteCsv store (extract_s3_output_path year_month table_name start_date end_date)
    (extractQuery start_date end_date source)

/-! ## Transformer join (etl.py lines 89-100)

The five loads `df1 .. df5` all read header-bearing CSVs from the
landing area, so each row carries the named columns referenced by the
join conditions (plus the bank-name and amount columns used later).
The chained `.join` calls all condition on `df1`'s key columns, so the
joined set is the five-way product filtered by the four key
equalities. -/

structure Row where
  idBank : String
  idBranch : String
  idClient : String
  idAccount : String
  Bank_idBank : String
  Branch_idBranch : String
  Client_idClient : String
  Account_idAccount : String
  Name : String
  branch : String
  Amount : ℚ
deriving DecidableEq, Repr

/-- `l.join(r, cond)`: inner join keeping exactly the pairs satisfying
the condition. -/
def dfJoin {α β : Type} (l : List α) (r : List β) (cond : α → β → Bool) :
    List (α × β) :=
  l.flatMap (fun a => (r.filter (fun b => cond a b)).map (fun b => (a, b)))

/-- The chained join of etl.py lines 97-100.  Each condition references a
key column of `df1` (the first component of the accumulated tuple) and
the key column of the newly joined table. -/
def joined_df (df1 df2 df3 df4 df5 : List Row) :
    List ((((Row × Row) × Row) × Row) × Row) :=
  dfJoin (dfJoin (dfJoin (dfJoin df1 df2
    (fun r1 r2 => r1.idBank == r2.Bank_idBank))
    df3 (fun p r3 => p.1.idBranch == r3.Branch_idBranch))
    df4 (fun p r4 => p.1.1.idClient == r4.Client_idClient))
    df5 (fun p r5 => p.1.1.1.idAccount == r5.Account_idAccount)

/-! ## Moving average window (etl.py lines 106-111)

`Window.partitionBy('branch').orderBy(F.col('loan_date')).rowsBetween(-2, 0)`
and `F.avg('Amount').over(window_spec)`.  A joined row is viewed through
the three columns the window reads: `branch`, the derived `loan_date`,
and `Amount`.  Within a branch partition ordered ascending by
`loan_date`, the frame of row `i` is rows `i-2 .. i`, clipped at the
partition start, and `avg` is the arithmetic mean over the frame. -/

structure JoinedRow where
  branch : String
  loan_date : Nat
  Amount : ℚ
deriving DecidableEq, Repr

/-- Ascending insertion by `loan_date` (stable). -/
def insertByLoanDate (r : JoinedRow) : List JoinedRow → List JoinedRow
  | [] => [r]
  | x :: xs =>
      if x.loan_date ≤ r.loan_date then x :: insertByLoanDate r xs
      else r :: x :: xs

/-- Ascending sort by `loan_date`: the window's `orderBy(F.col('loan_date'))`. -/
def sortByLoanDate : List JoinedRow → List JoinedRow
  | [] => []
  | x :: xs => insertByLoanDate x (sortByLoanDate xs)

/-- The partition of `Window.partitionBy('branch')` for branch value `b`,
in the window's ascending `loan_date` order. -/
def branch_partition (rows : List JoinedRow) (b : String) : List JoinedRow :=
  sortByLoanDate (rows.filter (fun r => r.branch == b))

/-- The `Amount` column of a branch partition, in window order. -/
def branchAmounts (rows : List JoinedRow) (b : String) : List ℚ :=
  (branch_partition rows b).map JoinedRow.Amount

/-- The frame `rowsBetween(-2, 0)` at row index `i`: rows `i-2 .. i` of
the ordered partition, clipped at the partition start. -/
def windowFrame (xs : List ℚ) (i : Nat) : List ℚ :=
  (xs.take (i + 1)).drop (i + 1 - 3)

/-- `F.avg` over a frame: sum divided by row count. -/
def sparkAvg (ws : List ℚ) : ℚ := ws.sum / (ws.length : ℚ)

/-- The `avgLoanAmount` value of row `i` of an ordered partition. -/
def avgLoanAmountAt (xs : List ℚ) (i : Nat) : ℚ := sparkAvg (windowFrame xs i)

/-- The `avgLoanAmount` column over a whole ordered partition:
`withColumn` keeps one output value per input row. -/
def avgLoanAmounts (xs : List ℚ) : List ℚ :=
  (List.range xs.length).map (avgLoanAmountAt xs)

/-! ## Transformer control flow (etl.py lines 84-129)

`transform_monthly_data(spark, table_name)` runs its whole body inside
one `try`.  Lines 89-111 are engine operations (loads, join, orderBy,
`to_date`, window); their combined outcome is a parameter `engine`.
Line 117 then evaluates the name `final_df`, which is bound nowhere in
the function (its only earlier occurrence, line 113, is commented out)
and is not a module global, so Python raises `NameError` there; the
per-bank write loop of lines 118-122 is unreachable.  The `except`
block (lines 127-129) logs any exception and does not re-raise. -/

/-- The local names bound in `transform_monthly_data` once control
reaches line 117: the two parameters and the assignments of lines
89-115. -/
def transformLocalNames : List String :=
  ["spark", "table_name", "df1", "df2", "df3", "df4", "df5",
   "joined_df", "window_spec", "current_date"]

/-- Python name resolution inside `transform_monthly_data`: a name that
is neither a local nor relevant module global raises `NameError`. -/
def lookupLocal (n : String) : Except PyError Unit :=
  if transformLocalNames.contains n then Except.ok () else Except.error (PyError.nameError n)

/-- The `try` body of `transform_monthly_data` (etl.py lines 86-122),
returning the list of silver paths it writes.  `data` is the landing
data the loads would read; `engine` is the outcome of the engine
operations of lines 89-111. -/
def transform_body (data : List Row) (engine : Except PyError Unit) :
    Except PyError (List String) := do
  -- lines 89-111: loads, join, sort, loan_date derivation, window column
  let _ ← engine
  -- line 117: `bank_names = final_df.select('Name')...` evaluates `final_df`
  let _ ← lookupLocal "final_df"
  -- lines 118-122 are unreachable: `final_df` is unbound, so no write of
  -- any silver file is ever reached
  pure []

structure TransformResult where
  writes : List String
  loggedError : Bool
  raised : Bool
deriving DecidableEq, Repr

/-- `transform_monthly_data`: run the `try` body; on any exception, log
(lines 127-129) and fall through — the function returns normally either
way and never re-raises. -/
def transform_monthly_data (data : List Row) (engine : Except PyError Unit) :
    TransformResult :=
  match transform_body data engine with
  | Except.ok ws => { writes := ws, loggedError := false, raised := false }
  | Except.error _ => { writes := [], loggedError := true, raised := false }

/-! ## Extractor control flow (etl.py lines 48-82)

`extract_monthly_data` logs and re-raises on any failure; `outcome` is
the engine's verdict on the query-and-write of lines 59-72. -/

/-- Observable behaviour of one `extract_monthly_data` call: the log
lines it emits and the exception it re-raises, if any. -/
def extract_monthly_data (outcome : Except PyError Unit) (table_name : String) :
    List String × Except PyError Unit :=
  match outcome with
  | Except.ok _ =>
      (["Starting data extraction process for table: " ++ table_name,
        "Data loaded successfully from Aurora.",
        "Data saved successfully to S3.",
        "Data extraction process completed for table: " ++ table_name],
       Except.ok ())
  | Except.error e =>
      (["Starting data extraction process for table: " ++ table_name,
        "An error occurred during data extraction for table: " ++ table_name,
        "Data extraction process completed for table: " ++ table_name],
       Except.error e)

/-- The driver's extraction loop (etl.py lines 169-170): tables are
extracted in order; a re-raised exception leaves the loop at once, so
the tables after the failed one are never attempted.  Returns the list
of tables for which extraction was attempted and the escaping
exception, if any. -/
def extraction_loop (f : String → Except PyError Unit) :
    List String → List String × Option PyError
  | [] => ([], none)
  | t :: ts =>
      match (extract_monthly_data (f t) t).2 with
      | Except.error e => ([t], some e)
      | Except.ok _ =>
          let r := extraction_loop f ts
          (t :: r.1, r.2)

/-! ## Driver (etl.py lines 132-179)

`main` runs inside one `try`: build the Glue context, check the
argument count, create the session, fetch secrets, check the endpoint,
compute the month window, run the extraction loop, call
`transform_monthly_data()` — with zero arguments against a two-parameter
signature — and stop the session.  The top-level `except` (lines
177-179) logs any exception and does not re-raise. -/

structure Secrets where
  endpoint : Option String
  username : String
  password : String
deriving DecidableEq, Repr

/-- The inputs of one driver run: the argument vector (index 0 is the
script name), the secret-store response, the wall clock, the engine's
verdict per extracted table, and the transformer's would-be inputs. -/
structure DriverEnv where
  argv : List String
  secretsResult : Except PyError Secrets
  now : Date
  extractOutcome : String → Except PyError Unit
  landingData : List Row
  transformEngine : Except PyError Unit

/-- What one driver run did, as observable effects. -/
structure DriverTrace where
  secretsAttempted : Bool
  extractionsAttempted : List String
  transformBodyEntered : Bool
  transformWrites : List String
  sparkStopped : Bool
  caughtAtTop : Option PyError
deriving DecidableEq, Repr

/-- `def transform_monthly_data(spark, table_name)` has two required
positional parameters (etl.py line 84). -/
def transformParamCount : Nat := 2

/-- A Python call of `transform_monthly_data` with `provided` positional
arguments: `TypeError` before the body runs unless the arity matches. -/
def call_transform (provided : Nat) (data : List Row)
    (engine : Except PyError Unit) : Except PyError TransformResult :=
  if provided = transformParamCount then Except.ok (transform_monthly_data data engine)
  else Except.error (PyError.typeError
    "transform_monthly_data() missing required positional arguments")

/-- The driver `main` (etl.py lines 132-179). -/
def main (env : DriverEnv) : DriverTrace :=
  -- line 134: GlueContext(SparkContext.getOrCreate()) — no secret,
  -- query or storage access
  -- lines 135-137: argument count check
  if env.argv.length < 2 then
    { secretsAttempted := false, extractionsAttempted := [],
      transformBodyEntered := false, transformWrites := [],
      sparkStopped := false,
      caughtAtTop := some (PyError.valueError "No table names provided as job parameters.") }
  else
    -- line 140: table_names = args[1:]
    let table_names := env.argv.drop 1
    -- line 142: create_spark_session; lines 145-150: secrets and endpoint
    match env.secretsResult with
    | Except.error e =>
        { secretsAttempted := true, extractionsAttempted := [],
          transformBodyEntered := false, transformWrites := [],
          sparkStopped := false, caughtAtTop := some e }
    | Except.ok secrets =>
        match secrets.endpoint with
        | none =>
            { secretsAttempted := true, extractionsAttempted := [],
              transformBodyEntered := false, transformWrites := [],
              sparkStopped := false,
              caughtAtTop := some (PyError.valueError
                "Aurora endpoint not found in Secrets Manager response.") }
        | some _ =>
            -- lines 160-165: start_date / end_date (pure); lines 169-170: loop
            let r := extraction_loop env.extractOutcome table_names
            match r.2 with
            | some e =>
                { secretsAttempted := true, extractionsAttempted := r.1,
                  transformBodyEntered := false, transformWrites := [],
                  sparkStopped := false, caughtAtTop := some e }
            | none =>
                -- line 173: transform_monthly_data() — zero arguments
                match call_transform 0 env.landingData env.transformEngine with
                | Except.error e =>
                    { secretsAttempted := true, extractionsAttempted := r.1,
                      transformBodyEntered := false, transformWrites := [],
                      sparkStopped := false, caughtAtTop := some e }
                | Except.ok res =>
                    -- line 175: spark.stop()
                    { secretsAttempted := true, extractionsAttempted := r.1,
                      transformBodyEntered := true, transformWrites := res.writes,
                      sparkStopped := true, caughtAtTop := none }

/-! ## Helper lemmas -/

/-- A run of `extraction_loop` over tables that all extract cleanly
attempts every table and escapes with no exception. -/
theorem extraction_loop_all_ok (f : String → Except PyError Unit)
    (ts : List String) (h : ∀ t ∈ ts, f t = Except.ok ()) :
    extraction_loop f ts = (ts, none) := by
  induction ts with
  | nil => rfl
  | cons t ts ih =>
      have ht : f t = Except.ok () := h t (List.mem_cons_self t ts)
      have hts : ∀ u ∈ ts, f u = Except.ok () := fun u hu => h u (List.mem_cons_of_mem t hu)
      simp [extraction_loop, ht, extract_monthly_data, ih hts]

/-! ## Claim theorems -/

/-- C10: the landing output path computed by `extract_monthly_data`
depends only on the table name and the module-level `year_month`; two
extraction calls for the same table with different `start_date` /
`end_date` windows target the identical path. -/
theorem extract_path_independent_of_window (year_month table_name : String)
    (sd1 ed1 sd2 ed2 : Date) :
    extract_s3_output_path year_month table_name sd1 ed1 =
      extract_s3_output_path year_month table_name sd2 ed2 := rfl

/-- C4: the landing write goes to
`{base}/bronze/{table}/{year_month}/{table}_monthly_data_extract.csv`, a
pure function of `(table, year_month)`, in overwrite mode: re-running
extraction for the same table and month over the same source rows is
idempotent, the prior object at the path is fully replaced whatever it
was, and the landing content is exactly the queried rows. -/
theorem extract_write_overwrite_idempotent (store : ObjectStore)
    (year_month table_name : String) (start_date end_date : Date)
    (source : List SrcRow) :
    extract_s3_output_path year_month table_name start_date end_date =
      s3_base_path ++ "/" ++ landing ++ "/" ++ table_name ++ "/" ++ year_month
        ++ "/" ++ table_name ++ "_monthly_data_extract.csv" ∧
    extract_write (extract_write store year_month table_name start_date end_date source)
        year_month table_name start_date end_date source =
      extract_write store year_month table_name start_date end_date source ∧
    extract_write store year_month table_name start_date end_date source
        (extract_s3_output_path year_month table_name start_date end_date) =
      some (extractQuery start_date end_date source) ∧
    (∀ other : ObjectStore,
      extract_write store year_month table_name start_date end_date source
          (extract_s3_output_path year_month table_name start_date end_date) =
        extract_write other year_month table_name start_date end_date source
          (extract_s3_output_path year_month table_name start_date end_date)) := by
  refine ⟨rfl, ?_, ?_, ?_⟩
  · funext p
    simp only [extract_write, writeOverwriteCsv]
    split <;> rfl
  · simp [extract_write, writeOverwriteCsv]
  · intro other
    simp [extract_write, writeOverwriteCsv]

/-- C3: the driver's window is the first through last calendar day of
the current month, the extraction query keeps exactly the source rows
with `start_date <= date_column < end_date`, and therefore a row dated
on the last calendar day of the month is excluded from extraction. -/
theorem extraction_window_excludes_last_day (now : Date) (rows : List SrcRow) :
    startDateOf now = ⟨now.year, now.month, 1⟩ ∧
    endDateOf now = ⟨now.year, now.month, monthrangeLastDay now.year now.month⟩ ∧
    (∀ r : SrcRow, r ∈ extractQuery (startDateOf now) (endDateOf now) rows ↔
      (r ∈ rows ∧ dateLe (startDateOf now) r.date_column = true ∧
        dateLt r.date_column (endDateOf now) = true)) ∧
    (∀ r ∈ rows, r.date_column = endDateOf now →
      r ∉ extractQuery (startDateOf now) (endDateOf now) rows) := by
  refine ⟨rfl, rfl, ?_, ?_⟩
  · intro r
    simp [extractQuery, List.mem_filter]
  · intro r _ hdate hmem
    rw [extractQuery, List.mem_filter] at hmem
    have hlt : dateLt r.date_column (endDateOf now) = true := by
      have := hmem.2
      simp only [Bool.and_eq_true] at this
      exact this.2
    rw [hdate] at hlt
    simp [dateLt] at hlt

/-- Witness for C3 at September 2025: the row dated 2025-09-30 (the last
calendar day) is excluded from the extraction result. -/
theorem extraction_window_excludes_last_day_witness :
    ({ date_column := ⟨2025, 9, 30⟩, payload := "loan row" } : SrcRow) ∉
      extractQuery (startDateOf ⟨2025, 9, 15⟩) (endDateOf ⟨2025, 9, 15⟩)
        [{ date_column := ⟨2025, 9, 30⟩, payload := "loan row" }] :=
  (extraction_window_excludes_last_day ⟨2025, 9, 15⟩
      [{ date_column := ⟨2025, 9, 30⟩, payload := "loan row" }]).2.2.2
    { date_column := ⟨2025, 9, 30⟩, payload := "loan row" }
    (by decide) (by decide)

/-- C7: a driver run with zero table-name arguments (`len(args) < 2`)
raises the configuration `ValueError` before attempting any secret
retrieval, extraction query, or storage write. -/
theorem zero_table_args_config_error (env : DriverEnv)
    (h : env.argv.length < 2) :
    main env =
      { secretsAttempted := false, extractionsAttempted := [],
        transformBodyEntered := false, transformWrites := [],
        sparkStopped := false,
        caughtAtTop := some (PyError.valueError "No table names provided as job parameters.") } := by
  simp [main, h]

/-- Witness for C7: an invocation whose argument vector holds only the
script name attempts no secrets call and no extraction. -/
theorem zero_table_args_config_error_witness :
    main { argv := ["etl.py"],
           secretsResult := Except.ok ⟨some "aurora-host", "user", "pw"⟩,
           now := ⟨2025, 9, 15⟩,
           extractOutcome := fun _ => Except.ok (),
           landingData := [], transformEngine := Except.ok () } =
      { secretsAttempted := false, extractionsAttempted := [],
        transformBodyEntered := false, transformWrites := [],
        sparkStopped := false,
        caughtAtTop := some (PyError.valueError "No table names provided as job parameters.") } :=
  zero_table_args_config_error _ (by decide)

/-- C5: a failed extraction is logged with the table name and re-raised,
and the driver's loop then attempts no extraction for any table listed
after the failed one: the attempted list is exactly the clean prefix
plus the failed table. -/
theorem extract_error_reraised_aborts_loop (f : String → Except PyError Unit)
    (before after : List String) (t : String) (e : PyError)
    (hok : ∀ u ∈ before, f u = Except.ok ())
    (herr : f t = Except.error e) :
    ("An error occurred during data extraction for table: " ++ t)
        ∈ (extract_monthly_data (f t) t).1 ∧
    (extract_monthly_data (f t) t).2 = Except.error e ∧
    extraction_loop f (before ++ t :: after) = (before ++ [t], some e) := by
  refine ⟨?_, ?_, ?_⟩
  · rw [herr]; simp [extract_monthly_data]
  · rw [herr]; rfl
  · induction before with
    | nil => simp [extraction_loop, herr, extract_monthly_data]
    | cons u us ih =>
        have hu : f u = Except.ok () := hok u (List.mem_cons_self u us)
        have hus : ∀ v ∈ us, f v = Except.ok () :=
          fun v hv => hok v (List.mem_cons_of_mem u hv)
        simp [extraction_loop, hu, extract_monthly_data, ih hus]

/-- Witness for C5: with the Account extraction failing, the loop
attempts Bank, Branch, Account and never reaches Client or Loan. -/
theorem extract_error_reraised_aborts_loop_witness :
    extraction_loop
        (fun u => if u = "Account"
          then Except.error (PyError.sparkError "connection refused")
          else Except.ok ())
        (["Bank", "Branch"] ++ "Account" :: ["Client", "Loan"]) =
      (["Bank", "Branch"] ++ ["Account"], some (PyError.sparkError "connection refused")) :=
  (extract_error_reraised_aborts_loop
      (fun u => if u = "Account"
        then Except.error (PyError.sparkError "connection refused")
        else Except.ok ())
      ["Bank", "Branch"] ["Client", "Loan"] "Account"
      (PyError.sparkError "connection refused")
      (by intro u hu; fin_cases hu <;> rfl) rfl).2.2

/-- C6: any exception escaping the transformer's `try` body — load,
join, window, or write failure alike — is logged by the `except` block
and swallowed: `transform_monthly_data` returns normally and never
re-raises to its caller. -/
theorem transform_error_logged_and_swallowed (data : List Row)
    (engine : Except PyError Unit) (e : PyError)
    (h : transform_body data engine = Except.error e) :
    (transform_monthly_data data engine).raised = false ∧
    (transform_monthly_data data engine).loggedError = true := by
  simp [transform_monthly_data, h]

/-- Witness for C6: an engine failure during the loads is absorbed and
logged, not re-raised. -/
theorem transform_error_logged_and_swallowed_witness :
    (transform_monthly_data [] (Except.error (PyError.sparkError "path does not exist"))).raised
        = false ∧
    (transform_monthly_data [] (Except.error (PyError.sparkError "path does not exist"))).loggedError
        = true :=
  transform_error_logged_and_swallowed [] (Except.error (PyError.sparkError "path does not exist"))
    (PyError.sparkError "path does not exist") rfl

/-- C2 (code bug): whatever the landing data — in particular a joined
dataset whose bank names are exactly A and B — and whatever the engine
outcome, `transform_monthly_data` writes no silver file at all: line 117
evaluates the unbound name `final_df` and raises `NameError` before the
per-bank write loop, and the `except` block swallows the exception.  The
claimed two per-bank output files are never produced. -/
theorem transform_writes_no_files (data : List Row)
    (engine : Except PyError Unit) :
    (transform_monthly_data data engine).writes = [] ∧
    (transform_monthly_data data engine).raised = false := by
  cases engine with
  | error e => exact ⟨rfl, rfl⟩
  | ok u => cases u; exact ⟨rfl, rfl⟩

/-- C9: a run that passes the argument check, secret retrieval and every
extraction still ends with the zero-argument call
`transform_monthly_data()` raising an arity `TypeError`: the transformer
body is never entered, no transformed output is written, the top-level
handler absorbs the exception, and `spark.stop()` is never reached. -/
theorem transform_call_arity_error (env : DriverEnv) (secrets : Secrets)
    (ep : String)
    (hargs : 2 ≤ env.argv.length)
    (hsec : env.secretsResult = Except.ok secrets)
    (hep : secrets.endpoint = some ep)
    (hext : ∀ t ∈ env.argv.drop 1, env.extractOutcome t = Except.ok ()) :
    main env =
      { secretsAttempted := true, extractionsAttempted := env.argv.drop 1,
        transformBodyEntered := false, transformWrites := [],
        sparkStopped := false,
        caughtAtTop := some (PyError.typeError
          "transform_monthly_data() missing required positional arguments") } := by
  have hloop := extraction_loop_all_ok env.extractOutcome (env.argv.drop 1) hext
  have hloop2 : extraction_loop env.extractOutcome env.argv.tail = (env.argv.tail, none) := by
    simpa [List.drop_one] using hloop
  have hnot : ¬ env.argv.length < 2 := Nat.not_lt.mpr hargs
  simp [main, hnot, hsec, hep, hloop2, call_transform, transformParamCount]

/-- Witness for C9: a fully clean run over the single table Loan still
never enters the transformer and never stops the session. -/
theorem transform_call_arity_error_witness :
    main { argv := ["etl.py", "Loan"],
           secretsResult := Except.ok ⟨some "aurora-host", "user", "pw"⟩,
           now := ⟨2025, 9, 15⟩,
           extractOutcome := fun _ => Except.ok (),
           landingData := [], transformEngine := Except.ok () } =
      { secretsAttempted := true, extractionsAttempted := ["Loan"],
        transformBodyEntered := false, transformWrites := [],
        sparkStopped := false,
        caughtAtTop := some (PyError.typeError
          "transform_monthly_data() missing required positional arguments") } :=
  transform_call_arity_error _ ⟨some "aurora-host", "user", "pw"⟩ "aurora-host"
    (by decide) rfl rfl (by intro t _; rfl)

/-- Membership in a single `dfJoin`: exactly the pairs from both sides
that satisfy the join condition. -/
theorem mem_dfJoin {α β : Type} (l : List α) (r : List β)
    (cond : α → β → Bool) (p : α × β) :
    p ∈ dfJoin l r cond ↔ p.1 ∈ l ∧ p.2 ∈ r ∧ cond p.1 p.2 = true := by
  cases p with
  | mk a b =>
      simp only [dfJoin, List.mem_flatMap, List.mem_map, List.mem_filter]
      constructor
      · rintro ⟨x, hx, y, ⟨hy, hc⟩, heq⟩
        cases heq
        exact ⟨hx, hy, hc⟩
      · rintro ⟨ha, hb, hc⟩
        exact ⟨a, ha, b, ⟨hb, hc⟩, rfl⟩

/-- C8: the transform's join is an inner join on exactly the four key
equalities `idBank = Bank_idBank`, `idBranch = Branch_idBranch`,
`idClient = Client_idClient`, `idAccount = Account_idAccount`: a tuple
is in the joined set iff each component comes from its table and all
four equalities hold, and a record of the first table lacking a match
under any one of the four equalities appears in no joined row. -/
theorem joined_df_inner_join_on_keys (df1 df2 df3 df4 df5 : List Row) :
    (∀ tup : (((Row × Row) × Row) × Row) × Row,
      tup ∈ joined_df df1 df2 df3 df4 df5 ↔
        (tup.1.1.1.1 ∈ df1 ∧ tup.1.1.1.2 ∈ df2 ∧ tup.1.1.2 ∈ df3 ∧
         tup.1.2 ∈ df4 ∧ tup.2 ∈ df5 ∧
         tup.1.1.1.1.idBank = tup.1.1.1.2.Bank_idBank ∧
         tup.1.1.1.1.idBranch = tup.1.1.2.Branch_idBranch ∧
         tup.1.1.1.1.idClient = tup.1.2.Client_idClient ∧
         tup.1.1.1.1.idAccount = tup.2.Account_idAccount)) ∧
    (∀ r1 : Row,
      ((¬ ∃ s ∈ df2, r1.idBank = s.Bank_idBank) ∨
       (¬ ∃ s ∈ df3, r1.idBranch = s.Branch_idBranch) ∨
       (¬ ∃ s ∈ df4, r1.idClient = s.Client_idClient) ∨
       (¬ ∃ s ∈ df5, r1.idAccount = s.Account_idAccount)) →
      ∀ tup ∈ joined_df df1 df2 df3 df4 df5, tup.1.1.1.1 ≠ r1) := by
  have hmem : ∀ tup : (((Row × Row) × Row) × Row) × Row,
      tup ∈ joined_df df1 df2 df3 df4 df5 ↔
        (tup.1.1.1.1 ∈ df1 ∧ tup.1.1.1.2 ∈ df2 ∧ tup.1.1.2 ∈ df3 ∧
         tup.1.2 ∈ df4 ∧ tup.2 ∈ df5 ∧
         tup.1.1.1.1.idBank = tup.1.1.1.2.Bank_idBank ∧
         tup.1.1.1.1.idBranch = tup.1.1.2.Branch_idBranch ∧
         tup.1.1.1.1.idClient = tup.1.2.Client_idClient ∧
         tup.1.1.1.1.idAccount = tup.2.Account_idAccount) := by
    intro tup
    simp only [joined_df, mem_dfJoin, beq_iff_eq]
    tauto
  refine ⟨hmem, ?_⟩
  intro r1 hno tup htup heq
  have h := (hmem tup).1 htup
  rcases hno with h2 | h3 | h4 | h5
  · exact h2 ⟨tup.1.1.1.2, h.2.1, heq ▸ h.2.2.2.2.2.1⟩
  · exact h3 ⟨tup.1.1.2, h.2.2.1, heq ▸ h.2.2.2.2.2.2.1⟩
  · exact h4 ⟨tup.1.2, h.2.2.2.1, heq ▸ h.2.2.2.2.2.2.2.1⟩
  · exact h5 ⟨tup.2, h.2.2.2.2.1, heq ▸ h.2.2.2.2.2.2.2.2⟩

/-- Witness for C8: a loan record whose `idBank` matches nothing in the
bank table appears in no joined row. -/
theorem joined_df_inner_join_on_keys_witness :
    ∀ tup ∈ joined_df
        [⟨"b9", "br1", "c1", "a1", "", "", "", "", "BankA", "br1", 100⟩]
        [⟨"", "", "", "", "b1", "", "", "", "BankA", "", 0⟩] [] [] [],
      tup.1.1.1.1 ≠ ⟨"b9", "br1", "c1", "a1", "", "", "", "", "BankA", "br1", 100⟩ :=
  (joined_df_inner_join_on_keys
      [⟨"b9", "br1", "c1", "a1", "", "", "", "", "BankA", "br1", 100⟩]
      [⟨"", "", "", "", "b1", "", "", "", "BankA", "", 0⟩] [] [] []).2
    ⟨"b9", "br1", "c1", "a1", "", "", "", "", "BankA", "br1", 100⟩
    (Or.inl (by decide))

/-- From the third row of a partition on, the `rowsBetween(-2, 0)` frame
is exactly the current row and the two preceding ones. -/
theorem windowFrame_at_least_three (xs : List ℚ) (i : Nat)
    (h : i + 2 < xs.length) :
    windowFrame xs (i + 2) = [xs.getD i 0, xs.getD (i + 1) 0, xs.getD (i + 2) 0] := by
  have h0 : i < xs.length := by omega
  have h1 : i + 1 < xs.length := by omega
  have ht : windowFrame xs (i + 2) = List.take 3 (xs.drop i) := by
    simp only [windowFrame]
    rw [show i + 2 + 1 = i + 3 from rfl, show i + 3 - 3 = i by omega, List.drop_take]
    congr 1
    omega
  rw [ht, List.drop_eq_getElem_cons h0, List.drop_eq_getElem_cons h1,
    List.drop_eq_getElem_cons h, List.getD_eq_getElem xs 0 h0,
    List.getD_eq_getElem xs 0 h1, List.getD_eq_getElem xs 0 h]
  simp only [List.take_succ_cons, List.take_zero]

/-- Index-level description of the `avgLoanAmount` column over one
ordered partition: one output per input row, the first row averages over
itself alone, the second over the first two rows, and every later row
over the trailing three. -/
theorem avgLoanAmounts_spec (xs : List ℚ) :
    (avgLoanAmounts xs).length = xs.length ∧
    (∀ i, i < xs.length → (avgLoanAmounts xs).getD i 0 = avgLoanAmountAt xs i) ∧
    (0 < xs.length → avgLoanAmountAt xs 0 = xs.getD 0 0) ∧
    (1 < xs.length → avgLoanAmountAt xs 1 = (xs.getD 0 0 + xs.getD 1 0) / 2) ∧
    (∀ i, i + 2 < xs.length → avgLoanAmountAt xs (i + 2) =
      (xs.getD i 0 + xs.getD (i + 1) 0 + xs.getD (i + 2) 0) / 3) := by
  refine ⟨by simp [avgLoanAmounts], ?_, ?_, ?_, ?_⟩
  · intro i h
    have hlen : i < (avgLoanAmounts xs).length := by simpa [avgLoanAmounts] using h
    rw [List.getD_eq_getElem _ _ hlen]
    simp [avgLoanAmounts]
  · intro h
    match xs, h with
    | a :: t, _ => simp [avgLoanAmountAt, windowFrame, sparkAvg]
  · intro h
    match xs, h with
    | a :: b :: t, _ =>
        simp [avgLoanAmountAt, windowFrame, sparkAvg, List.take]
  · intro i h
    rw [avgLoanAmountAt, windowFrame_at_least_three xs i h]
    simp [sparkAvg]
    ring

/-- C1: over every branch partition of the joined data, ordered
ascending by `loan_date`, the `avgLoanAmount` column has one value per
partition row (no row is dropped for a short frame); its first value is
that row's own `Amount`, its second the mean of the first two amounts,
and from the third row on the mean of the trailing three amounts. -/
theorem moving_average_partial_then_trailing_three (rows : List JoinedRow) (b : String) :
    (avgLoanAmounts (branchAmounts rows b)).length = (branch_partition rows b).length ∧
    (∀ i, i < (branchAmounts rows b).length →
      (avgLoanAmounts (branchAmounts rows b)).getD i 0 =
        avgLoanAmountAt (branchAmounts rows b) i) ∧
    (0 < (branchAmounts rows b).length →
      avgLoanAmountAt (branchAmounts rows b) 0 = (branchAmounts rows b).getD 0 0) ∧
    (1 < (branchAmounts rows b).length →
      avgLoanAmountAt (branchAmounts rows b) 1 =
        ((branchAmounts rows b).getD 0 0 + (branchAmounts rows b).getD 1 0) / 2) ∧
    (∀ i, i + 2 < (branchAmounts rows b).length →
      avgLoanAmountAt (branchAmounts rows b) (i + 2) =
        ((branchAmounts rows b).getD i 0 + (branchAmounts rows b).getD (i + 1) 0 +
          (branchAmounts rows b).getD (i + 2) 0) / 3) := by
  obtain ⟨h1, h2, h3, h4, h5⟩ := avgLoanAmounts_spec (branchAmounts rows b)
  refine ⟨?_, h2, h3, h4, h5⟩
  rw [h1, branchAmounts, List.length_map]

/-- Witness for C1: in a branch with three loans of 10, 20 and 30 (and
an unrelated branch alongside), the third row averages the trailing
three amounts. -/
theorem moving_average_partial_then_trailing_three_witness :
    avgLoanAmountAt
        (branchAmounts [⟨"b1", 1, 10⟩, ⟨"b1", 2, 20⟩, ⟨"b1", 3, 30⟩, ⟨"b2", 1, 99⟩] "b1")
        (0 + 2) =
      ((branchAmounts [⟨"b1", 1, 10⟩, ⟨"b1", 2, 20⟩, ⟨"b1", 3, 30⟩, ⟨"b2", 1, 99⟩] "b1").getD 0 0 +
        (branchAmounts [⟨"b1", 1, 10⟩, ⟨"b1", 2, 20⟩, ⟨"b1", 3, 30⟩, ⟨"b2", 1, 99⟩] "b1").getD (0 + 1) 0 +
        (branchAmounts [⟨"b1", 1, 10⟩, ⟨"b1", 2, 20⟩, ⟨"b1", 3, 30⟩, ⟨"b2", 1, 99⟩] "b1").getD (0 + 2) 0) / 3 :=
  (moving_average_partial_then_trailing_three
      [⟨"b1", 1, 10⟩, ⟨"b1", 2, 20⟩, ⟨"b1", 3, 30⟩, ⟨"b2", 1, 99⟩] "b1").2.2.2.2
    0 (by decide)

end ETL
